import Mathlib

/-!
# Verification of the trade-execution and network-routing core of `pulse-agent`

Shallow embedding of the gas manager (`src/lib/gasManager.ts`, class `GasManager`
and function `createGasManager`), the Uniswap V3 quote engine and swap executor
(same file, class `UniswapTrader`), the Uniswap V2 fallback swap executor
(`src/lib/simpleSwap.ts`, class `SimpleSwapper`), and the trade orchestrator
(`src/lib/trading.ts`, `executeTrade` / `executeEthereumNetworkTrade`).

Conventions of the embedding:
* JavaScript `bigint` wei amounts are `ℕ` (all source values are non-negative).
* RPC calls are modelled by explicit environment records (`ChainEnv`, oracles);
  a `try`/`catch` around an RPC call becomes a case split on the environment.
* Thrown `Error`s become `Except String` with the message built as the source
  builds it (number formatting via a Lean `formatEther`; `ethers.formatEther`
  prints at least one fractional digit, which `formatEther` reproduces).
* JS floats that only ever hold exactly-representable small constants
  (gas multipliers `1.2`, `1.1`, urgency multipliers) are embedded after the
  source's own `Math.floor(x * 100)` conversion, as the resulting integers.
-/

/-- Embeds `NetworkGasSettings` (gasManager.ts lines 11-17).
`baseFeeMultiplierX100` is `Math.floor(baseFeeMultiplier * 100)` as computed at
line 120; `priorityFeeWei` is `ethers.parseUnits(priorityFeeGwei, 'gwei')` as
computed at line 115 (both conversions are exact for every configured value). -/
structure NetworkGasSettings where
  isMainnet : Bool
  chainId : ℕ
  supports1559 : Bool
  baseFeeMultiplierX100 : ℕ
  priorityFeeWei : ℕ
  deriving Repr, DecidableEq

/-- Embeds `GasConfig` (gasManager.ts lines 3-9): optional fields are `Option`,
present exactly when the source sets them. -/
structure GasConfig where
  gasLimit : ℕ
  maxFeePerGas : Option ℕ := none
  maxPriorityFeePerGas : Option ℕ := none
  gasPrice : Option ℕ := none
  txType : ℕ
  deriving Repr, DecidableEq

/-- Chain state consumed by the gas manager's RPC calls.
`rpcOk = false` models `provider.getFeeData()` / `getBlock('latest')` throwing
(the `catch` branches at gasManager.ts lines 93 and 135); `feeDataGasPrice` is
`feeData.gasPrice` (null ↦ `none`, line 81); `baseFeePerGas` is
`latestBlock?.baseFeePerGas` (null ↦ `none`, line 110). -/
structure ChainEnv where
  rpcOk : Bool
  feeDataGasPrice : Option ℕ
  baseFeePerGas : Option ℕ
  deriving Repr, DecidableEq

/-- One gwei in wei (`ethers.parseUnits(_, 'gwei')`). -/
def gweiWei : ℕ := 10 ^ 9

inductive Urgency | standard | fast | rapid
  deriving Repr, DecidableEq

/-- Embeds `getUrgencyMultiplier` (gasManager.ts lines 157-175), already scaled
by the source's `Math.floor(multiplier * 100)` at its use sites (lines 85, 117). -/
def getUrgencyMultiplierX100 (s : NetworkGasSettings) (u : Urgency) : ℕ :=
  if s.isMainnet then
    match u with
    | .standard => 120
    | .fast => 200
    | .rapid => 300
  else
    match u with
    | .standard => 100
    | .fast => 150
    | .rapid => 200

/-- Embeds `getLegacyGasPrice` (gasManager.ts lines 78-99). -/
def getLegacyGasPrice (s : NetworkGasSettings) (env : ChainEnv) (u : Urgency) : ℕ :=
  if env.rpcOk then
    let basePrice := env.feeDataGasPrice.getD (20 * gweiWei)
    let adjustedPrice := basePrice * getUrgencyMultiplierX100 s u / 100
    let minGasPrice := if s.isMainnet then 1 * gweiWei else gweiWei / 10
    if adjustedPrice < minGasPrice then minGasPrice else adjustedPrice
  else
    if s.isMainnet then 10 * gweiWei else 2 * gweiWei

/-- Embeds `getEIP1559FeeData` (gasManager.ts lines 104-152); the pair is
`(maxFeePerGas, maxPriorityFeePerGas)`. -/
def getEIP1559FeeData (s : NetworkGasSettings) (env : ChainEnv) (u : Urgency) : ℕ × ℕ :=
  if env.rpcOk then
    let baseFee := env.baseFeePerGas.getD (10 * gweiWei)
    let basePriorityFee := s.priorityFeeWei
    let maxPriorityFeePerGas := basePriorityFee * getUrgencyMultiplierX100 s u / 100
    let maxFeePerGas := baseFee * s.baseFeeMultiplierX100 / 100 + maxPriorityFeePerGas
    let minMaxFee := if s.isMainnet then 5 * gweiWei else gweiWei / 10
    let minPriorityFee := if s.isMainnet then 1 * gweiWei else gweiWei / 100
    ((if maxFeePerGas < minMaxFee then minMaxFee else maxFeePerGas),
     (if maxPriorityFeePerGas < minPriorityFee then minPriorityFee else maxPriorityFeePerGas))
  else
    ((if s.isMainnet then 15 * gweiWei else 3 * gweiWei),
     (if s.isMainnet then 2 * gweiWei else gweiWei / 5))

/-- Embeds `GasManager.getGasConfig` (gasManager.ts lines 31-73). -/
def getGasConfig (s : NetworkGasSettings) (env : ChainEnv) (estimatedGas : ℕ)
    (u : Urgency) : GasConfig :=
  let bufferedGas := estimatedGas * 120 / 100
  let minimumGas := if s.isMainnet then 150000 else 100000
  let gasLimit := if bufferedGas > minimumGas then bufferedGas else minimumGas
  if !s.supports1559 then
    { gasLimit := gasLimit, gasPrice := some (getLegacyGasPrice s env u), txType := 0 }
  else
    let feeData := getEIP1559FeeData s env u
    { gasLimit := gasLimit, maxFeePerGas := some feeData.1,
      maxPriorityFeePerGas := some feeData.2, txType := 2 }

/-- Embeds `createGasManager` (gasManager.ts lines 216-272): the
`NetworkGasSettings` chosen for a chain id. -/
def createGasManagerSettings (chainId : ℕ) : NetworkGasSettings :=
  if chainId = 1 then
    { isMainnet := true, chainId := 1, supports1559 := true,
      baseFeeMultiplierX100 := 120, priorityFeeWei := 2 * gweiWei }
  else if chainId = 11155111 then
    { isMainnet := false, chainId := 11155111, supports1559 := true,
      baseFeeMultiplierX100 := 120, priorityFeeWei := gweiWei / 10 }
  else if chainId = 8453 then
    { isMainnet := true, chainId := 8453, supports1559 := true,
      baseFeeMultiplierX100 := 120, priorityFeeWei := gweiWei / 100 }
  else if chainId = 84532 then
    { isMainnet := false, chainId := 84532, supports1559 := true,
      baseFeeMultiplierX100 := 110, priorityFeeWei := gweiWei / 1000 }
  else
    { isMainnet := false, chainId := chainId, supports1559 := true,
      baseFeeMultiplierX100 := 120, priorityFeeWei := 1 * gweiWei }

/-- The source's `a > b ? a : b` pattern computes a maximum. -/
lemma ite_gt_max (a b : ℕ) : (if b < a then a else b) = max a b := by
  rcases Nat.lt_or_ge b a with h | h
  · rw [if_pos h, Nat.max_eq_left (le_of_lt h)]
  · rw [if_neg (Nat.not_lt.mpr h), Nat.max_eq_right h]

/-- C9: for every estimated gas value `g`, `getGasConfig` returns
`gasLimit = max (g * 120 / 100) floor` with the floor 150000 on main networks
and 100000 on test networks; the gas limit does not depend on the chain-state
environment, so two calls with identical inputs yield the same gas limit. -/
theorem getGasConfig_gasLimit (s : NetworkGasSettings) (env env' : ChainEnv)
    (g : ℕ) (u u' : Urgency) :
    (getGasConfig s env g u).gasLimit
      = max (g * 120 / 100) (if s.isMainnet then 150000 else 100000) ∧
    (getGasConfig s env g u).gasLimit = (getGasConfig s env' g u').gasLimit := by
  have hlim : ∀ e uu, (getGasConfig s e g uu).gasLimit
      = max (g * 120 / 100) (if s.isMainnet then 150000 else 100000) := by
    intro e uu
    cases hs : s.supports1559 <;> simp [getGasConfig, hs, ite_gt_max]
  exact ⟨hlim env u, (hlim env u).trans (hlim env' u').symm⟩

/-- The on-chain quoting facility (`UniswapTrader.getQuote`, gasManager.ts
lines 376-394) abstracted as an oracle: fee tier and input amount to either a
quoted output amount, or `none` when the quoter call reverts (no liquidity). -/
def QuoteOracle : Type := ℕ → ℕ → Option ℕ

/-- The fixed ordered fee-tier list `[3000, 500, 10000]`, i.e. 0.3%, 0.05%, 1%
(gasManager.ts line 400). -/
def feeTiers : List ℕ := [3000, 500, 10000]

/-- Result record of `findBestFeeAndQuote` (gasManager.ts line 399). -/
structure FeeQuote where
  fee : ℕ
  quote : ℕ
  amountOutMin : ℕ
  deriving Repr, DecidableEq

/-- The slippage-adjusted minimum output `(quote * BigInt(100 - slippagePercent))
/ BigInt(100)` (gasManager.ts line 408); the source fixes `slippagePercent = 5`
at line 407. -/
def slippageMinOut (quote slippagePercent : ℕ) : ℕ :=
  quote * (100 - slippagePercent) / 100

/-- The tier loop of `UniswapTrader.findBestFeeAndQuote` (gasManager.ts lines
402-421), instrumented with the list of fee tiers whose quote call was issued:
each tier is tried in order, the first tier whose quote succeeds is returned
with 5%-slippage minimum output, and exhaustion raises the no-liquidity error. -/
def findBestFeeAndQuoteGo (q : QuoteOracle) (tokenAddress : String)
    (ethAmountWei : ℕ) : List ℕ → Except String FeeQuote × List ℕ
  | [] => (.error ("No liquidity found for WETH -> " ++ tokenAddress
            ++ " on any fee tier"), [])
  | fee :: rest =>
    match q fee ethAmountWei with
    | some quote => (.ok ⟨fee, quote, slippageMinOut quote 5⟩, [fee])
    | none =>
      let r := findBestFeeAndQuoteGo q tokenAddress ethAmountWei rest
      (r.1, fee :: r.2)

/-- Embeds `UniswapTrader.findBestFeeAndQuote` (gasManager.ts lines 399-422). -/
def findBestFeeAndQuote (q : QuoteOracle) (tokenAddress : String)
    (ethAmountWei : ℕ) : Except String FeeQuote :=
  (findBestFeeAndQuoteGo q tokenAddress ethAmountWei feeTiers).1

/-- Fee tiers actually consulted by `findBestFeeAndQuote`. -/
def findBestFeeAndQuoteConsulted (q : QuoteOracle) (tokenAddress : String)
    (ethAmountWei : ℕ) : List ℕ :=
  (findBestFeeAndQuoteGo q tokenAddress ethAmountWei feeTiers).2

/-- C3 counterexample: with integer bigint division the minimum output is NOT
strictly decreasing in the slippage percentage: at quote `Q = 1` the slippages
`S = 1` and `S = 2` (both in `(0, 100)`) yield the same minimum output `0`. -/
theorem slippageMinOut_not_strictly_decreasing :
    ¬ (∀ Q S₁ S₂ : ℕ, 0 < S₁ → S₁ < S₂ → S₂ < 100 →
        slippageMinOut Q S₂ < slippageMinOut Q S₁) := by
  intro h
  have := h 1 1 2 (by decide) (by decide) (by decide)
  simp [slippageMinOut] at this

/-- C3 (amended): for every quote `Q` and slippages `0 < S₁ < S₂ < 100`, the
minimum output `slippageMinOut Q S = Q * (100 - S) / 100` satisfies
`minOutput ≤ Q`, is monotonically non-increasing in the slippage, and is
strictly decreasing whenever `Q ≥ 100`; moreover the quote engine's returned
`amountOutMin` is exactly this formula at the hardcoded slippage 5. -/
theorem slippageMinOut_spec (Q S₁ S₂ : ℕ) (h1 : 0 < S₁) (h12 : S₁ < S₂)
    (h2 : S₂ < 100) :
    slippageMinOut Q S₁ ≤ Q ∧
    slippageMinOut Q S₂ ≤ slippageMinOut Q S₁ ∧
    (100 ≤ Q → slippageMinOut Q S₂ < slippageMinOut Q S₁) ∧
    (∀ (q : QuoteOracle) (tok : String) (a : ℕ) (r : FeeQuote),
      findBestFeeAndQuote q tok a = .ok r →
      r.amountOutMin = slippageMinOut r.quote 5) := by
  refine ⟨?_, ?_, ?_, ?_⟩
  · calc Q * (100 - S₁) / 100 ≤ Q * 100 / 100 :=
          Nat.div_le_div_right (Nat.mul_le_mul_left Q (by omega))
    _ = Q := Nat.mul_div_cancel Q (by norm_num)
  · exact Nat.div_le_div_right (Nat.mul_le_mul_left Q (by omega))
  · intro hQ
    have hstep : Q * (100 - S₂) + 100 ≤ Q * (100 - S₁) := by
      have : (100 - S₂) + 1 ≤ 100 - S₁ := by omega
      calc Q * (100 - S₂) + 100 ≤ Q * (100 - S₂) + Q := by omega
        _ = Q * ((100 - S₂) + 1) := by ring
        _ ≤ Q * (100 - S₁) := Nat.mul_le_mul_left Q this
    have h1 : Q * (100 - S₂) / 100 + 1 = (Q * (100 - S₂) + 100) / 100 :=
      (Nat.add_div_right _ (by norm_num)).symm
    have h2 : (Q * (100 - S₂) + 100) / 100 ≤ Q * (100 - S₁) / 100 :=
      Nat.div_le_div_right hstep
    simp only [slippageMinOut]
    omega
  · intro q tok a r hr
    unfold findBestFeeAndQuote findBestFeeAndQuoteGo feeTiers at hr
    rcases hq3 : q 3000 a with _ | v3 <;> rcases hq5 : q 500 a with _ | v5 <;>
      rcases hq10 : q 10000 a with _ | v10 <;>
      simp [hq3, hq5, hq10, findBestFeeAndQuoteGo] at hr <;>
      subst hr <;> rfl

/-- C4: `findBestFeeAndQuote` probes the ordered tiers 3000, 500, 10000 and
returns the first tier whose quote succeeds, never consulting later tiers (the
consulted-tier trace stops at the first success, whatever the later tiers would
quote); if every tier fails it raises the no-liquidity error after consulting
all three tiers. -/
theorem findBestFeeAndQuote_first_tier_wins (q : QuoteOracle) (tok : String)
    (a : ℕ) :
    (∀ v, q 3000 a = some v →
      findBestFeeAndQuoteGo q tok a feeTiers
        = (.ok ⟨3000, v, slippageMinOut v 5⟩, [3000])) ∧
    (q 3000 a = none → ∀ v, q 500 a = some v →
      findBestFeeAndQuoteGo q tok a feeTiers
        = (.ok ⟨500, v, slippageMinOut v 5⟩, [3000, 500])) ∧
    (q 3000 a = none → q 500 a = none → ∀ v, q 10000 a = some v →
      findBestFeeAndQuoteGo q tok a feeTiers
        = (.ok ⟨10000, v, slippageMinOut v 5⟩, [3000, 500, 10000])) ∧
    (q 3000 a = none → q 500 a = none → q 10000 a = none →
      findBestFeeAndQuoteGo q tok a feeTiers
        = (.error ("No liquidity found for WETH -> " ++ tok
            ++ " on any fee tier"), [3000, 500, 10000])) := by
  refine ⟨?_, ?_, ?_, ?_⟩
  · intro v hv; simp [findBestFeeAndQuoteGo, feeTiers, hv]
  · intro h3 v hv; simp [findBestFeeAndQuoteGo, feeTiers, h3, hv]
  · intro h3 h5 v hv; simp [findBestFeeAndQuoteGo, feeTiers, h3, h5, hv]
  · intro h3 h5 h10; simp [findBestFeeAndQuoteGo, feeTiers, h3, h5, h10]

/-- Witness for C4 at a concrete oracle where the 0.3% tier quotes 10 and the
0.05% tier would quote the better price 999: the 0.3% result is returned and
only the tier 3000 is consulted. -/
theorem findBestFeeAndQuote_first_tier_wins_witness :
    (fun (fee _amt : ℕ) =>
        if fee = 3000 then some 10 else if fee = 500 then some 999 else none)
        3000 7 = some 10 ∧
    findBestFeeAndQuoteGo
        (fun (fee _amt : ℕ) =>
          if fee = 3000 then some 10 else if fee = 500 then some 999 else none)
        "0xtok" 7 feeTiers
      = (.ok ⟨3000, 10, slippageMinOut 10 5⟩, [3000]) :=
  ⟨rfl, (findBestFeeAndQuote_first_tier_wins
      (fun (fee _amt : ℕ) =>
        if fee = 3000 then some 10 else if fee = 500 then some 999 else none)
      "0xtok" 7).1 10 rfl⟩

/-- Witness for C3's amended theorem at `Q = 250`, `S₁ = 4`, `S₂ = 9`. -/
theorem slippageMinOut_spec_witness :
    slippageMinOut 250 4 ≤ 250 ∧ slippageMinOut 250 9 ≤ slippageMinOut 250 4 ∧
    (100 ≤ 250 → slippageMinOut 250 9 < slippageMinOut 250 4) ∧
    (∀ (q : QuoteOracle) (tok : String) (a : ℕ) (r : FeeQuote),
      findBestFeeAndQuote q tok a = .ok r →
      r.amountOutMin = slippageMinOut r.quote 5) :=
  slippageMinOut_spec 250 4 9 (by decide) (by decide) (by decide)

/-- Digits-only string to number; `none` when empty or non-digit characters
occur (used by `parseEther` below). -/
def decDigits (l : List Char) : Option ℕ :=
  if l.isEmpty || !(l.all Char.isDigit) then none
  else some (l.foldl (fun acc c => acc * 10 + (c.toNat - 48)) 0)

/-- Embeds `ethers.parseEther`: decimal ether string to wei, for plain decimal
strings (an optional single decimal point, at most 18 fractional digits);
`none` models the library throwing on malformed input. -/
def parseEther (s : String) : Option ℕ :=
  let l := s.toList
  let whole := l.takeWhile (fun c => c ≠ '.')
  match l.dropWhile (fun c => c ≠ '.') with
  | [] => (decDigits whole).map (· * 10 ^ 18)
  | _ :: frac =>
    if frac.contains '.' then none
    else
      match decDigits whole, decDigits frac with
      | some wn, some fn =>
        if frac.length ≤ 18 then
          some (wn * 10 ^ 18 + fn * 10 ^ (18 - frac.length))
        else none
      | _, _ => none

/-- Embeds `ethers.formatEther`: wei to decimal ether string, with trailing zeros
trimmed and at least one fractional digit (as the library prints). -/
def formatEther (wei : ℕ) : String :=
  let intPart := wei / 10 ^ 18
  let frac := wei % 10 ^ 18
  let digits := (toString frac).toList
  let padded := List.replicate (18 - digits.length) '0' ++ digits
  let trimmed := (padded.reverse.dropWhile (fun c => c = '0')).reverse
  toString intPart ++ "." ++ (if trimmed.isEmpty then "0" else String.mk trimmed)

/-- Embeds `ethers.isAddress`, restricted to the non-checksummed form the system uses:
`0x` followed by 40 lowercase hex digits (checksummed mixed-case addresses are
outside the model; every address in this development is lowercase, where the
library and this predicate agree). -/
def isAddress (s : String) : Bool :=
  match s.toList with
  | '0' :: 'x' :: rest =>
    rest.length = 40 && rest.all (fun c => c.isDigit || ('a' ≤ c && c ≤ 'f'))
  | _ => false

/-- The 20-iteration binary search inside `calculateEthForTokenAmount`
(gasManager.ts lines 434-454): `go fuel low high best`; a failing quote call is
caught and treated like a too-small quote (`low = mid + 1`, line 452). -/
def ethSearchGo (q : QuoteOracle) (fee target : ℕ) : ℕ → ℕ → ℕ → ℕ → ℕ
  | 0, _, _, best => best
  | fuel + 1, low, high, best =>
    let mid := (low + high) / 2
    match q fee mid with
    | some quote =>
      if quote ≥ target then ethSearchGo q fee target fuel low (mid - 1) mid
      else ethSearchGo q fee target fuel (mid + 1) high best
    | none => ethSearchGo q fee target fuel (mid + 1) high best

/-- Embeds `UniswapTrader.calculateEthForTokenAmount` (gasManager.ts lines 427-466):
tier loop over `feeTiers`; the per-tier body (the binary search over
0.001-0.1 ETH) handles every quote failure internally and cannot throw, so the
loop returns from the first tier it enters; the final no-tier error (line 465)
is reached only on an empty tier list. -/
def calculateEthForTokenAmount (q : QuoteOracle) (targetTokenAmount : ℕ) :
    Except String (ℕ × ℕ) :=
  match feeTiers with
  | [] => .error ("Could not calculate ETH needed for "
      ++ toString targetTokenAmount ++ " tokens")
  | fee :: _ =>
    .ok (ethSearchGo q fee targetTokenAmount 20 (10 ^ 15) (10 ^ 17) (10 ^ 17), fee)

/-- Result record of `calculateSafeTradeAmount` (gasManager.ts line 475). -/
structure SafeTradeResult where
  tradeAmount : ℕ
  fee : ℕ
  gasReserve : ℕ
  deriving Repr, DecidableEq

/-- Embeds `ethers.parseEther('0.0002')`, the fixed safety buffer (gasManager.ts
line 485). -/
def safeBuffer : ℕ := 2 * 10 ^ 14

/-- The gas reserve `calculateSafeTradeAmount` computes (gasManager.ts lines
477-486): gas cost of the fixed 200000-gas estimate at standard urgency plus
the safety buffer. `maxFeePerGas || gasPrice || 0` coincides with the nested
`Option.getD` because whichever field is absent is `none`. -/
def gasReserve (s : NetworkGasSettings) (env : ChainEnv) : ℕ :=
  let gasConfig := getGasConfig s env 200000 .standard
  gasConfig.gasLimit * (gasConfig.maxFeePerGas.getD (gasConfig.gasPrice.getD 0))
    + safeBuffer

/-- Embeds `UniswapTrader.calculateSafeTradeAmount` (gasManager.ts lines 471-511). -/
def calculateSafeTradeAmount (s : NetworkGasSettings) (env : ChainEnv)
    (q : QuoteOracle) (tokenAddress : String) (availableETH : ℕ)
    (targetTokenAmount : Option ℕ) : Except String SafeTradeResult :=
  let totalReserve := gasReserve s env
  if availableETH ≤ totalReserve then
    .error ("Insufficient ETH. Need at least " ++ formatEther totalReserve
      ++ " for gas + buffer")
  else
    let maxTradeAmount := availableETH - totalReserve
    match targetTokenAmount with
    | some target =>
      match calculateEthForTokenAmount q target with
      | .error e => .error e
      | .ok (ethNeeded, fee) =>
        if ethNeeded > maxTradeAmount then
          .ok ⟨maxTradeAmount, fee, totalReserve⟩
        else
          .ok ⟨ethNeeded, fee, totalReserve⟩
    | none =>
      match findBestFeeAndQuote q tokenAddress maxTradeAmount with
      | .error e => .error e
      | .ok fq => .ok ⟨maxTradeAmount, fq.fee, totalReserve⟩

/-- C1: with `G = gasReserve s env` (estimated gas cost at standard urgency
plus the fixed safety buffer), `calculateSafeTradeAmount` fails with the
insufficient-balance error whenever the available balance `B ≤ G`, and every
successful result satisfies `gasReserve = G`, `tradeAmount ≤ B - G` and
`tradeAmount + gasReserve ≤ B` — in the no-target case and in the
target-output case (where the exact input is capped at the maximum). -/
theorem calculateSafeTradeAmount_spec (s : NetworkGasSettings) (env : ChainEnv)
    (q : QuoteOracle) (tok : String) (B : ℕ) (target : Option ℕ) :
    (B ≤ gasReserve s env →
      calculateSafeTradeAmount s env q tok B target
        = .error ("Insufficient ETH. Need at least "
            ++ formatEther (gasReserve s env) ++ " for gas + buffer")) ∧
    (∀ r, calculateSafeTradeAmount s env q tok B target = .ok r →
      r.gasReserve = gasReserve s env ∧
      r.tradeAmount ≤ B - gasReserve s env ∧
      r.tradeAmount + r.gasReserve ≤ B) := by
  constructor
  · intro hle
    simp [calculateSafeTradeAmount, hle]
  · intro r hr
    by_cases hle : B ≤ gasReserve s env
    · simp [calculateSafeTradeAmount, hle] at hr
    · simp only [calculateSafeTradeAmount, if_neg hle] at hr
      rcases target with _ | target
      · rcases hfq : findBestFeeAndQuote q tok (B - gasReserve s env) with e | fq <;>
          simp only [hfq, Except.ok.injEq] at hr
        · exact absurd hr (by simp)
        · subst hr
          exact ⟨rfl, le_refl _, by simp only [SafeTradeResult.mk.injEq]; omega⟩
      · rcases hc : calculateEthForTokenAmount q target with e | p <;>
          simp only [hc] at hr
        · exact absurd hr (by simp)
        · obtain ⟨pn, pf⟩ := p
          by_cases hgt : pn > B - gasReserve s env
          · rw [if_pos hgt, Except.ok.injEq] at hr
            subst hr
            exact ⟨rfl, le_refl _, by dsimp only; omega⟩
          · rw [if_neg hgt, Except.ok.injEq] at hr
            subst hr
            exact ⟨rfl, by dsimp only; omega, by dsimp only; omega⟩

/-- Witness for C1: on Ethereum mainnet settings with failed fee RPC (fallback
fees), the gas reserve is 0.0038 ETH; a 0.001 ETH balance fails with the
insufficient-balance error, and a 0.01 ETH balance yields trade amount
0.0062 ETH with `tradeAmount + gasReserve ≤ balance`. -/
theorem calculateSafeTradeAmount_spec_witness :
    ((10 ^ 15 : ℕ) ≤ gasReserve (createGasManagerSettings 1) ⟨false, none, none⟩ ∧
     calculateSafeTradeAmount (createGasManagerSettings 1) ⟨false, none, none⟩
        (fun _ _ => some 1) "0xabc" (10 ^ 15) none
       = .error ("Insufficient ETH. Need at least "
           ++ formatEther (gasReserve (createGasManagerSettings 1) ⟨false, none, none⟩)
           ++ " for gas + buffer")) ∧
    ((SafeTradeResult.mk 6200000000000000 3000 3800000000000000).gasReserve
        = gasReserve (createGasManagerSettings 1) ⟨false, none, none⟩ ∧
     (SafeTradeResult.mk 6200000000000000 3000 3800000000000000).tradeAmount
        ≤ 10 ^ 16 - gasReserve (createGasManagerSettings 1) ⟨false, none, none⟩ ∧
     (SafeTradeResult.mk 6200000000000000 3000 3800000000000000).tradeAmount
        + (SafeTradeResult.mk 6200000000000000 3000 3800000000000000).gasReserve
        ≤ 10 ^ 16) := by
  have hle : (10 ^ 15 : ℕ)
      ≤ gasReserve (createGasManagerSettings 1) ⟨false, none, none⟩ := by decide
  have hok : calculateSafeTradeAmount (createGasManagerSettings 1)
      ⟨false, none, none⟩ (fun _ _ => some 1) "0xabc" (10 ^ 16) none
      = .ok ⟨6200000000000000, 3000, 3800000000000000⟩ := rfl
  exact ⟨⟨hle, (calculateSafeTradeAmount_spec _ _ _ _ _ _).1 hle⟩,
    (calculateSafeTradeAmount_spec _ _ _ _ _ _).2 _ hok⟩

/-- The Uniswap V3 router's WETH constant (gasManager.ts line 278). -/
def WETH_ADDRESS : String := "0xC02aaA39b223FE8D0A0e5C4F27eAD9083C756Cc2"

/-- Outcome of the router submission and receipt wait, fixed by the
environment: the router call rejecting, a receipt with status 1, a receipt
with status 0, or `tx.wait()` resolving to null. -/
inductive SubmitOutcome
  | submitFailed (msg : String)
  | confirmed (hash : String)
  | reverted (hash : String)
  | noReceipt (hash : String)
  deriving Repr, DecidableEq

/-- Chain conditions one swap attempt runs under: wallet balance, quoting
oracle, gas-estimation outcome (the same within one attempt), fee-data chain
state, detected network settings, signer address (local, no RPC), current
time, submission outcome, and whether the 5-minute confirmation race times out
(only the V2 path has that race, simpleSwap.ts lines 166-171). -/
structure SwapEnv where
  balance : ℕ
  quotes : QuoteOracle
  gasEstimate : Except String ℕ
  rpc : ChainEnv
  settings : NetworkGasSettings
  recipient : String
  nowSec : ℕ
  submit : SubmitOutcome
  waitTimesOut : Bool

/-- Embeds `UniswapTradeResult` / `SimpleSwapResult` (gasManager.ts lines
336-342, simpleSwap.ts lines 26-32; the two records are identical). -/
structure SwapResult where
  success : Bool
  transactionHash : Option String := none
  toTokenAmount : Option String := none
  error : Option String := none
  deriving Repr, DecidableEq

/-- Embeds `GasManager.estimateGasWithRetry` (gasManager.ts lines 180-210)
under fixed per-attempt conditions (`outcome` is what every inner estimation
call yields): result, the inner backoff sleeps (`2^i * 1000` ms after inner
attempt `i`, line 201), and the number of estimation calls issued. -/
def estimateGasWithRetry (outcome : Except String ℕ) (retries : ℕ) :
    Except String ℕ × List ℕ × ℕ :=
  match outcome with
  | .ok g => (.ok g, [], if retries = 0 then 0 else 1)
  | .error m =>
    (.error ("Gas estimation failed after " ++ toString retries ++ " attempts: "
      ++ (if retries = 0 then "undefined" else m)),
     (List.range (retries - 1)).map (fun i => 2 ^ i * 1000),
     retries)

/-- Number of fee-data RPC calls `getGasConfig` issues (gasManager.ts lines
80, 106-109): one `getFeeData` on the legacy path; `getFeeData` plus
`getBlock` on the fee-market path when the first call succeeds, one call when
it throws. -/
def getGasConfigNetCalls (s : NetworkGasSettings) (env : ChainEnv) : ℕ :=
  if !s.supports1559 then 1 else if env.rpcOk then 2 else 1

/-- Parameters of a submitted Uniswap V3 `exactInputSingle` transaction
(gasManager.ts lines 573-582 together with the transaction options at
lines 603-613). -/
structure UniV3Submitted where
  tokenIn : String
  tokenOut : String
  fee : ℕ
  recipient : String
  deadline : ℕ
  amountIn : ℕ
  amountOutMinimum : ℕ
  value : ℕ
  gasLimit : ℕ
  deriving Repr, DecidableEq

/-- Parameters of a submitted Uniswap V2 `swapExactETHForTokens` transaction
(simpleSwap.ts lines 154-160 with the options at lines 139-151). -/
structure UniV2Submitted where
  amountOutMin : ℕ
  path : List String
  toAddr : String
  deadline : ℕ
  value : ℕ
  gasLimit : ℕ
  deriving Repr, DecidableEq

/-- What one swap attempt produced: `res` is `ok (txHash, toTokenAmount)` or
the thrown error message; plus the attempt's RPC-call count, in-attempt sleeps
(gas-estimation backoff), and submitted transactions. -/
structure AttemptOut (τ : Type) where
  res : Except String (String × Option String)
  netCalls : ℕ
  sleeps : List ℕ
  submitted : List τ

/-- A whole retry-loop run: final result plus its observable trace. -/
structure SwapRun (τ : Type) where
  result : SwapResult
  attempts : ℕ
  sleeps : List ℕ
  netCalls : ℕ
  submitted : List τ
  deriving Repr, DecidableEq

/-- The manual retry loop both swap executors repeat (gasManager.ts lines
548-645, simpleSwap.ts lines 72-211): `go remaining attemptNo lastErr` runs
the remaining attempts starting at 1-based `attemptNo`; between failed
attempts it sleeps `delayF attemptNo`; exhaustion yields the aggregate
failure `After <maxRetries> attempts: <last error>`; `noAttemptMsg` is the
source's message for a null last error (only reachable with zero attempts). -/
def swapRetryLoopGo {τ : Type} (attemptF : ℕ → AttemptOut τ) (maxRetries : ℕ)
    (delayF : ℕ → ℕ) (noAttemptMsg : String) : ℕ → ℕ → SwapRun τ
  | 0, _ =>
    { result := { success := false, error := some noAttemptMsg },
      attempts := 0, sleeps := [], netCalls := 0, submitted := [] }
  | k + 1, attemptNo =>
    let a := attemptF attemptNo
    match a.res with
    | .ok (hash, tta) =>
      { result :=
          { success := true, transactionHash := some hash, toTokenAmount := tta },
        attempts := 1, sleeps := a.sleeps, netCalls := a.netCalls,
        submitted := a.submitted }
    | .error msg =>
      if k = 0 then
        { result :=
            { success := false,
              error := some ("After " ++ toString maxRetries ++ " attempts: " ++ msg) },
          attempts := 1, sleeps := a.sleeps, netCalls := a.netCalls,
          submitted := a.submitted }
      else
        let rest := swapRetryLoopGo attemptF maxRetries delayF noAttemptMsg k
          (attemptNo + 1)
        { result := rest.result, attempts := 1 + rest.attempts,
          sleeps := a.sleeps ++ delayF attemptNo :: rest.sleeps,
          netCalls := a.netCalls + rest.netCalls,
          submitted := a.submitted ++ rest.submitted }

/-- Entry point of the retry loop: `maxRetries` attempts from attempt 1. -/
def runSwap {τ : Type} (attemptF : ℕ → AttemptOut τ) (maxRetries : ℕ)
    (delayF : ℕ → ℕ) (noAttemptMsg : String) : SwapRun τ :=
  swapRetryLoopGo attemptF maxRetries delayF noAttemptMsg maxRetries 1

/-- One attempt of `UniswapTrader.swapEthForTokenSimple` (gasManager.ts lines
548-639): validate address, parse amount, balance check (needs amount plus
the fixed 0.0008 ETH gas allowance, line 563), quote via the tier search,
gas estimation with 1 retry, gas config, submit `exactInputSingle`, await
receipt (`!receipt || status 0` both throw `Transaction failed`, line 621). -/
def uniswapV3Attempt (env : SwapEnv) (tokenAddress ethAmount : String) :
    AttemptOut UniV3Submitted :=
  if !(isAddress tokenAddress) then
    ⟨.error ("Invalid token address: " ++ tokenAddress), 0, [], []⟩
  else
    match parseEther ethAmount with
    | none => ⟨.error ("invalid FixedNumber string value (argument=\x22ether\x22, value=\x22" ++ ethAmount ++ "\x22)"), 0, [], []⟩
    | some ethAmountWei =>
      if env.balance < ethAmountWei + 8 * 10 ^ 14 then
        ⟨.error ("Insufficient balance: " ++ formatEther env.balance
          ++ " ETH available, need " ++ ethAmount ++ " ETH + gas ("
          ++ formatEther (ethAmountWei + 8 * 10 ^ 14) ++ " total)"), 1, [], []⟩
      else
        let deadline := env.nowSec + 600
        let fq := findBestFeeAndQuoteGo env.quotes tokenAddress ethAmountWei feeTiers
        match fq.1 with
        | .error e => ⟨.error e, 1 + fq.2.length, [], []⟩
        | .ok q =>
          let gas := estimateGasWithRetry env.gasEstimate 1
          match gas.1 with
          | .error e => ⟨.error e, 1 + fq.2.length + gas.2.2, gas.2.1, []⟩
          | .ok gasEstimate =>
            let gasConfig := getGasConfig env.settings env.rpc gasEstimate .standard
            let calls := 1 + fq.2.length + gas.2.2
              + getGasConfigNetCalls env.settings env.rpc
            let tx : UniV3Submitted :=
              ⟨WETH_ADDRESS, tokenAddress, q.fee, env.recipient, deadline,
               ethAmountWei, q.amountOutMin, ethAmountWei, gasConfig.gasLimit⟩
            match env.submit with
            | .submitFailed msg => ⟨.error msg, calls + 1, gas.2.1, [tx]⟩
            | .confirmed hash =>
              ⟨.ok (hash, some (toString q.quote)), calls + 2, gas.2.1, [tx]⟩
            | .reverted hash =>
              ⟨.error ("Transaction failed: " ++ hash), calls + 2, gas.2.1, [tx]⟩
            | .noReceipt hash =>
              ⟨.error ("Transaction failed: " ++ hash), calls + 2, gas.2.1, [tx]⟩

/-- Embeds `UniswapTrader.swapEthForTokenSimple` (gasManager.ts lines 540-646):
`maxRetries = 2`, fixed 1000 ms delay between attempts (line 637); the
`slippage` parameter is accepted and never used. -/
def swapEthForTokenSimple (envs : ℕ → SwapEnv) (tokenAddress ethAmount : String)
    (_slippage : ℕ) : SwapRun UniV3Submitted :=
  runSwap (fun n => uniswapV3Attempt (envs n) tokenAddress ethAmount) 2
    (fun _ => 1000) "Unknown error"

/-- Embeds `UniswapTrader.swapEthForToken` (gasManager.ts lines 528-535): it
delegates to `swapEthForTokenSimple` unchanged. -/
def swapEthForToken (envs : ℕ → SwapEnv) (tokenAddress ethAmount : String)
    (slippage : ℕ) : SwapRun UniV3Submitted :=
  swapEthForTokenSimple envs tokenAddress ethAmount slippage

/-- One attempt of `SimpleSwapper.swapEthForToken` (simpleSwap.ts lines
72-203): validate address, parse amount, fixed minimum trade size 0.0015 ETH
(lines 85-88), no balance check, `amountOutMin = 0` (line 103), gas estimation
with 2 retries (wrapped error, line 122), gas config, submit
`swapExactETHForTokens`, await receipt under the 5-minute race. -/
def simpleSwapAttempt (env : SwapEnv) (tokenAddress ethAmount : String) :
    AttemptOut UniV2Submitted :=
  if !(isAddress tokenAddress) then
    ⟨.error ("Invalid token address: " ++ tokenAddress), 0, [], []⟩
  else
    match parseEther ethAmount with
    | none => ⟨.error ("invalid FixedNumber string value (argument=\x22ether\x22, value=\x22" ++ ethAmount ++ "\x22)"), 0, [], []⟩
    | some ethAmountWei =>
      if ethAmountWei < 15 * 10 ^ 14 then
        ⟨.error ("Trade amount too small: " ++ ethAmount
          ++ " ETH (minimum: 0.0015 ETH for reliable DEX swaps)"), 0, [], []⟩
      else
        let path := [WETH_ADDRESS, tokenAddress]
        let deadline := env.nowSec + 1200
        let amountOutMin := 0
        let gas := estimateGasWithRetry env.gasEstimate 2
        match gas.1 with
        | .error e =>
          ⟨.error ("Gas estimation failed - this usually means the swap would fail. Possible reasons: insufficient liquidity, token transfer restrictions, or amount too small. Original error: "
            ++ e), gas.2.2, gas.2.1, []⟩
        | .ok gasEstimate =>
          let gasConfig := getGasConfig env.settings env.rpc gasEstimate .standard
          let calls := gas.2.2 + getGasConfigNetCalls env.settings env.rpc
          let tx : UniV2Submitted :=
            ⟨amountOutMin, path, env.recipient, deadline, ethAmountWei,
             gasConfig.gasLimit⟩
          match env.submit with
          | .submitFailed msg => ⟨.error msg, calls + 1, gas.2.1, [tx]⟩
          | .confirmed hash =>
            if env.waitTimesOut then
              ⟨.error "Transaction confirmation timeout (5 minutes)",
               calls + 2, gas.2.1, [tx]⟩
            else ⟨.ok (hash, some "unknown"), calls + 2, gas.2.1, [tx]⟩
          | .reverted hash =>
            if env.waitTimesOut then
              ⟨.error "Transaction confirmation timeout (5 minutes)",
               calls + 2, gas.2.1, [tx]⟩
            else ⟨.error ("Transaction failed on-chain. Hash: " ++ hash),
              calls + 2, gas.2.1, [tx]⟩
          | .noReceipt _ =>
            if env.waitTimesOut then
              ⟨.error "Transaction confirmation timeout (5 minutes)",
               calls + 2, gas.2.1, [tx]⟩
            else ⟨.error "Transaction receipt not received", calls + 2,
              gas.2.1, [tx]⟩

/-- Embeds `SimpleSwapper.swapEthForToken` (simpleSwap.ts lines 64-212):
`maxRetries = 3`, exponential delay `2^(attempt-1) * 2000` ms (line 199); the
`slippage` parameter is accepted and never used. -/
def simpleSwapEthForToken (envs : ℕ → SwapEnv) (tokenAddress ethAmount : String)
    (_slippage : ℕ) : SwapRun UniV2Submitted :=
  runSwap (fun n => simpleSwapAttempt (envs n) tokenAddress ethAmount) 3
    (fun attempt => 2 ^ (attempt - 1) * 2000) "Unknown error after retries"

/-- Observable behaviour of the orchestrator's venue-routing slice
(trading.ts lines 489-536): final outcome plus the list of
`(tokenAddress, ethAmount)` argument pairs each venue was invoked with. -/
structure OrchRun where
  result : Except String SwapResult
  primaryCalls : List (String × String)
  fallbackCalls : List (String × String)
  deriving Repr

/-- Embeds the venue-routing slice of `executeEthereumNetworkTrade`
(trading.ts lines 489-536): balance check (the source compares
`parseFloat(ethBalance) < tradeAmountETH`; both numbers are exact decimal
renderings of the wei values compared here), primary Uniswap V3 attempt,
fallback Uniswap V2 attempt only on primary failure, and the final
`DEX swap failed` error built from the last `swapResult.error` alone.
Each venue call passes the same `tokenResult.token.address` and
`tradeAmountETH.toString()` (lines 499-503 and 514-518). -/
def executeEthereumNetworkTrade (uniEnvs simpleEnvs : ℕ → SwapEnv)
    (balanceWei : ℕ) (tokenAddress ethAmount : String) (maxSlippage : ℕ) :
    OrchRun :=
  match parseEther ethAmount with
  | none => ⟨.error "invalid trade amount", [], []⟩
  | some amtWei =>
    if balanceWei < amtWei then
      ⟨.error ("Insufficient ETH balance: " ++ formatEther balanceWei
        ++ " ETH available, need " ++ ethAmount ++ " ETH"), [], []⟩
    else
      let r1 := swapEthForToken uniEnvs tokenAddress ethAmount maxSlippage
      if r1.result.success then
        ⟨.ok r1.result, [(tokenAddress, ethAmount)], []⟩
      else
        let r2 := simpleSwapEthForToken simpleEnvs tokenAddress ethAmount
          maxSlippage
        if r2.result.success then
          ⟨.ok r2.result, [(tokenAddress, ethAmount)],
           [(tokenAddress, ethAmount)]⟩
        else
          ⟨.error ("DEX swap failed: " ++ r2.result.error.getD "undefined"),
           [(tokenAddress, ethAmount)], [(tokenAddress, ethAmount)]⟩

inductive ChainType | base | ethereum
  deriving Repr, DecidableEq

/-- Embeds the per-family entries of `TRADING_CONFIG.hybrid`
(config/trading.ts): both families enabled with
`minTradeAmountETH = 0.001`. -/
structure HybridNetworkConfig where
  enabled : Bool
  minTradeAmountETH : ℚ
  deriving Repr, DecidableEq

def TRADING_CONFIG_hybrid : ChainType → HybridNetworkConfig
  | .base => ⟨true, 1 / 1000⟩
  | .ethereum => ⟨true, 1 / 1000⟩

/-- The DEX liquidity-reliability minimum `0.0015` ETH (trading.ts lines
165 and 179). -/
def dexMinimum : ℚ := 15 / 10000

/-- Outcome of the sizing slice: the `skipped*` constructors are the early
`return`s of `executeTrade` (trading.ts lines 138-142, 153-161, 164-172)
taken before any position record is created or any swap attempted; `proceed`
carries the committed `tradeAmountETH` that the position records and the
venue receives (lines 175-189). -/
inductive SizingOutcome
  | skippedDisabled
  | skippedInsufficientBalance
  | skippedDexMinimum
  | proceed (tradeAmountETH : ℚ)
  deriving Repr, DecidableEq

/-- Embeds the trade-sizing slice of `executeTrade` (trading.ts lines
136-183): disabled-family skip, `preferred = balance * 0.10`, skip when
`balance < minRequired`, the extra DEX-minimum balance skip for the Ethereum
family, then `max preferred minRequired` additionally floored at `dexMinimum`
for the Ethereum family (JS numbers carry these exact decimal constants; the
arithmetic is embedded in `ℚ`). -/
def executeTradeSizing (networkType : ChainType) (balanceETH : ℚ) :
    SizingOutcome :=
  let cfg := TRADING_CONFIG_hybrid networkType
  if !cfg.enabled then .skippedDisabled
  else
    let preferredTradeAmountETH := balanceETH * (10 / 100)
    let minRequired := cfg.minTradeAmountETH
    if balanceETH < minRequired then .skippedInsufficientBalance
    else if networkType = .ethereum ∧ balanceETH < dexMinimum then
      .skippedDexMinimum
    else
      let amt := max preferredTradeAmountETH minRequired
      let amt := if networkType = .ethereum then max amt dexMinimum else amt
      .proceed amt

/-- A fixed benign chain environment used by the concrete runs below. -/
def demoEnv : SwapEnv :=
  { balance := 10 ^ 18,
    quotes := fun _ _ => some (10 ^ 20),
    gasEstimate := .ok 150000,
    rpc := ⟨false, none, none⟩,
    settings := createGasManagerSettings 1,
    recipient := "0xaaaaaaaaaaaaaaaaaaaaaaaaaaaaaaaaaaaaaaaa",
    nowSec := 1700000000,
    submit := .confirmed "0xhash1",
    waitTimesOut := false }

/-- A well-formed (lowercase hex) token address used by concrete runs. -/
def demoToken : String := "0xbbbbbbbbbbbbbbbbbbbbbbbbbbbbbbbbbbbbbbbb"

/-- Within one V3 attempt no sleep ever happens: the only in-attempt sleeps
would come from gas-estimation retries, and the V3 simple path estimates with
a single try (gasManager.ts line 596). -/
lemma uniswapV3Attempt_sleeps (env : SwapEnv) (token amt : String) :
    (uniswapV3Attempt env token amt).sleeps = [] := by
  rcases hg : env.gasEstimate with m | g <;>
    simp only [uniswapV3Attempt, estimateGasWithRetry, hg] <;>
    repeat' split
  all_goals rfl

/-- C2 counterexample: the executor the orchestrator invokes
(`swapEthForToken`, which delegates to `swapEthForTokenSimple`) runs an
address-validation failure through the retry loop: with an invalid token
address it makes 2 attempts (not 3, and not a single fail-fast attempt) and
sleeps a flat 1000 ms between them (not 2s/4s/8s). -/
theorem swapEthForToken_retry_counterexample :
    (swapEthForToken (fun _ => demoEnv) "0xnotanaddress" "0.01" 5).attempts = 2 ∧
    (swapEthForToken (fun _ => demoEnv) "0xnotanaddress" "0.01" 5).sleeps = [1000] ∧
    (swapEthForToken (fun _ => demoEnv) "0xnotanaddress" "0.01" 5).result.error
      = some "After 2 attempts: Invalid token address: 0xnotanaddress" :=
  ⟨rfl, rfl, rfl⟩

/-- C2 (amended): `swapEthForToken` delegates to `swapEthForTokenSimple`,
which makes up to 2 attempts total with a fixed 1000 ms delay between
attempts, and retries every failure class — including address-validation
failure, which therefore fails each attempt and is reported only after both
attempts. -/
theorem swapEthForToken_retry_policy (envs : ℕ → SwapEnv) (token amt : String)
    (sl : ℕ) (hbad : isAddress token = false) :
    swapEthForToken envs token amt sl = swapEthForTokenSimple envs token amt sl ∧
    (swapEthForToken envs token amt sl).attempts ≤ 2 ∧
    ((swapEthForToken envs token amt sl).sleeps = [] ∨
     (swapEthForToken envs token amt sl).sleeps = [1000]) ∧
    ((swapEthForToken envs token amt sl).attempts = 2 ∧
     (swapEthForToken envs token amt sl).sleeps = [1000] ∧
     (swapEthForToken envs token amt sl).result
       = { success := false,
           error := some ("After 2 attempts: "
             ++ ("Invalid token address: " ++ token)) }) := by
  have hatt : ∀ n, uniswapV3Attempt (envs n) token amt
      = ⟨.error ("Invalid token address: " ++ token), 0, [], []⟩ := by
    intro n
    simp [uniswapV3Attempt, hbad]
  refine ⟨rfl, ?_, ?_, ?_, ?_, ?_⟩ <;>
    simp [swapEthForToken, swapEthForTokenSimple, runSwap, swapRetryLoopGo, hatt] <;>
    try rfl

/-- Witness for C2's amended theorem at the concrete invalid address. -/
theorem swapEthForToken_retry_policy_witness :
    swapEthForToken (fun _ => demoEnv) "0xnotanaddress" "0.01" 5
      = swapEthForTokenSimple (fun _ => demoEnv) "0xnotanaddress" "0.01" 5 ∧
    (swapEthForToken (fun _ => demoEnv) "0xnotanaddress" "0.01" 5).attempts ≤ 2 ∧
    ((swapEthForToken (fun _ => demoEnv) "0xnotanaddress" "0.01" 5).sleeps = [] ∨
     (swapEthForToken (fun _ => demoEnv) "0xnotanaddress" "0.01" 5).sleeps = [1000]) ∧
    ((swapEthForToken (fun _ => demoEnv) "0xnotanaddress" "0.01" 5).attempts = 2 ∧
     (swapEthForToken (fun _ => demoEnv) "0xnotanaddress" "0.01" 5).sleeps = [1000] ∧
     (swapEthForToken (fun _ => demoEnv) "0xnotanaddress" "0.01" 5).result
       = { success := false,
           error := some ("After 2 attempts: "
             ++ ("Invalid token address: " ++ "0xnotanaddress")) }) :=
  swapEthForToken_retry_policy (fun _ => demoEnv) "0xnotanaddress" "0.01" 5 rfl

/-- C10: both swap executors' observable behaviour (returned outcome, attempt
trace, and submitted transactions) is independent of the slippage argument of
their public signatures: the V3 path hardcodes 5% slippage inside
`findBestFeeAndQuote` and the V2 path hardcodes minimum output 0. -/
theorem swap_slippage_independent (envs envs2 : ℕ → SwapEnv)
    (token amt : String) (s₁ s₂ : ℕ) :
    swapEthForToken envs token amt s₁ = swapEthForToken envs token amt s₂ ∧
    simpleSwapEthForToken envs2 token amt s₁
      = simpleSwapEthForToken envs2 token amt s₂ :=
  ⟨rfl, rfl⟩

/-- An attempt with an amount below the fixed minimum fails before any RPC
call with the descriptive minimum-size error (simpleSwap.ts lines 85-88). -/
lemma simpleSwapAttempt_below_min (env : SwapEnv) (token amt : String) (w : ℕ)
    (haddr : isAddress token = true) (hw : parseEther amt = some w)
    (hlt : w < 15 * 10 ^ 14) :
    simpleSwapAttempt env token amt
      = ⟨.error ("Trade amount too small: " ++ amt
          ++ " ETH (minimum: 0.0015 ETH for reliable DEX swaps)"), 0, [], []⟩ := by
  have hc : (w < 15 * 10 ^ 14) = True := eq_true hlt
  simp [simpleSwapAttempt, haddr, hw, hc]
  intro h
  exact absurd h (by omega)

/-- C7 counterexample: a fallback-venue swap of 0.001 ETH (below the 0.0015
minimum) does fail with the descriptive minimum-size error and zero network
calls, but not immediately: the validation error is retried like any other
failure, with 3 attempts and backoff sleeps of 2000 ms and 4000 ms. -/
theorem simpleSwap_minimum_counterexample :
    (simpleSwapEthForToken (fun _ => demoEnv) demoToken "0.001" 3).sleeps
      = [2000, 4000] ∧
    (simpleSwapEthForToken (fun _ => demoEnv) demoToken "0.001" 3).attempts = 3 ∧
    (simpleSwapEthForToken (fun _ => demoEnv) demoToken "0.001" 3).netCalls = 0 ∧
    (simpleSwapEthForToken (fun _ => demoEnv) demoToken "0.001" 3).result.error
      = some ("After 3 attempts: Trade amount too small: 0.001 ETH (minimum: 0.0015 ETH for reliable DEX swaps)") :=
  ⟨rfl, rfl, rfl, rfl⟩

/-- C7 (amended): for every input amount strictly below the fixed 0.0015 ETH
minimum, `SimpleSwapper.swapEthForToken` issues zero network calls and submits
nothing, and fails with the descriptive minimum-size error — but only after
running the validation failure through the full retry loop: 3 attempts with
backoff sleeps 2000 ms and 4000 ms. -/
theorem simpleSwap_minimum_spec (envs : ℕ → SwapEnv) (token amt : String)
    (sl w : ℕ) (haddr : isAddress token = true) (hw : parseEther amt = some w)
    (hlt : w < 15 * 10 ^ 14) :
    (simpleSwapEthForToken envs token amt sl).netCalls = 0 ∧
    (simpleSwapEthForToken envs token amt sl).submitted = [] ∧
    (simpleSwapEthForToken envs token amt sl).attempts = 3 ∧
    (simpleSwapEthForToken envs token amt sl).sleeps = [2000, 4000] ∧
    (simpleSwapEthForToken envs token amt sl).result
      = { success := false,
          error := some ("After 3 attempts: "
            ++ ("Trade amount too small: " ++ amt
              ++ " ETH (minimum: 0.0015 ETH for reliable DEX swaps)")) } := by
  have hatt : ∀ n, simpleSwapAttempt (envs n) token amt
      = ⟨.error ("Trade amount too small: " ++ amt
          ++ " ETH (minimum: 0.0015 ETH for reliable DEX swaps)"), 0, [], []⟩ :=
    fun n => simpleSwapAttempt_below_min (envs n) token amt w haddr hw hlt
  refine ⟨?_, ?_, ?_, ?_, ?_⟩ <;>
    simp [simpleSwapEthForToken, runSwap, swapRetryLoopGo, hatt] <;>
    try rfl

/-- Witness for C7's amended theorem at 0.001 ETH. -/
theorem simpleSwap_minimum_spec_witness :
    (simpleSwapEthForToken (fun _ => demoEnv) demoToken "0.001" 3).netCalls = 0 ∧
    (simpleSwapEthForToken (fun _ => demoEnv) demoToken "0.001" 3).submitted = [] ∧
    (simpleSwapEthForToken (fun _ => demoEnv) demoToken "0.001" 3).attempts = 3 ∧
    (simpleSwapEthForToken (fun _ => demoEnv) demoToken "0.001" 3).sleeps
      = [2000, 4000] ∧
    (simpleSwapEthForToken (fun _ => demoEnv) demoToken "0.001" 3).result
      = { success := false,
          error := some ("After 3 attempts: "
            ++ ("Trade amount too small: " ++ "0.001"
              ++ " ETH (minimum: 0.0015 ETH for reliable DEX swaps)")) } :=
  simpleSwap_minimum_spec (fun _ => demoEnv) demoToken "0.001" 3 (10 ^ 15)
    rfl (by decide) (by norm_num)

/-- C5: for every DEX-routed trade that passes the orchestrator's balance
check, the primary venue is invoked once with the given token address and
amount, and the fallback venue is invoked exactly once — with the same token
address and the same amount — if and only if the primary venue reports
failure; on primary success the fallback venue is never invoked. -/
theorem orchestrator_fallback_iff_primary_fails (uniEnvs simpleEnvs : ℕ → SwapEnv)
    (bal : ℕ) (token amt : String) (slip w : ℕ)
    (hw : parseEther amt = some w) (hbal : ¬ bal < w) :
    (executeEthereumNetworkTrade uniEnvs simpleEnvs bal token amt slip).primaryCalls
      = [(token, amt)] ∧
    ((swapEthForToken uniEnvs token amt slip).result.success = true →
      (executeEthereumNetworkTrade uniEnvs simpleEnvs bal token amt slip).fallbackCalls
        = []) ∧
    ((swapEthForToken uniEnvs token amt slip).result.success = false →
      (executeEthereumNetworkTrade uniEnvs simpleEnvs bal token amt slip).fallbackCalls
        = [(token, amt)]) := by
  rcases hs : (swapEthForToken uniEnvs token amt slip).result.success with _ | _
  · rcases hs2 : (simpleSwapEthForToken simpleEnvs token amt slip).result.success
      with _ | _ <;>
      simp [executeEthereumNetworkTrade, hw, hbal, hs, hs2]
  · simp [executeEthereumNetworkTrade, hw, hbal, hs]

/-- A primary-venue environment with no liquidity on any tier. -/
def demoEnvNoLiq : SwapEnv := { demoEnv with quotes := fun _ _ => none }

/-- A primary-venue environment whose router call rejects with a distinct
message. -/
def demoEnvSubmitFail : SwapEnv :=
  { demoEnv with submit := .submitFailed "primary submit rejected" }

/-- A fallback-venue environment whose router call rejects. -/
def demoEnvFallbackFail : SwapEnv :=
  { demoEnv with submit := .submitFailed "boom" }

/-- Witness for C5: with a failing primary venue and a succeeding fallback
venue, the fallback is invoked exactly once with the same token and amount. -/
theorem orchestrator_fallback_iff_primary_fails_witness :
    (executeEthereumNetworkTrade (fun _ => demoEnvNoLiq) (fun _ => demoEnv)
        (10 ^ 18) demoToken "0.01" 3).primaryCalls = [(demoToken, "0.01")] ∧
    ((swapEthForToken (fun _ => demoEnvNoLiq) demoToken "0.01" 3).result.success
        = true →
      (executeEthereumNetworkTrade (fun _ => demoEnvNoLiq) (fun _ => demoEnv)
        (10 ^ 18) demoToken "0.01" 3).fallbackCalls = []) ∧
    ((swapEthForToken (fun _ => demoEnvNoLiq) demoToken "0.01" 3).result.success
        = false →
      (executeEthereumNetworkTrade (fun _ => demoEnvNoLiq) (fun _ => demoEnv)
        (10 ^ 18) demoToken "0.01" 3).fallbackCalls = [(demoToken, "0.01")]) :=
  orchestrator_fallback_iff_primary_fails (fun _ => demoEnvNoLiq)
    (fun _ => demoEnv) (10 ^ 18) demoToken "0.01" 3 (10 ^ 16)
    (by decide) (by decide)

/-- C6 counterexample: two runs in which both venues fail, differing only in
the primary venue's error message, propagate the very same error to the
caller — `DEX swap failed: <fallback error>` — so the primary venue's message
is not preserved in the propagated error (it is only logged). -/
theorem orchestrator_error_counterexample :
    (swapEthForToken (fun _ => demoEnvNoLiq) demoToken "0.01" 3).result.error
      ≠ (swapEthForToken (fun _ => demoEnvSubmitFail) demoToken "0.01" 3).result.error ∧
    (executeEthereumNetworkTrade (fun _ => demoEnvNoLiq)
        (fun _ => demoEnvFallbackFail) (10 ^ 18) demoToken "0.01" 3).result
      = .error "DEX swap failed: After 3 attempts: boom" ∧
    (executeEthereumNetworkTrade (fun _ => demoEnvSubmitFail)
        (fun _ => demoEnvFallbackFail) (10 ^ 18) demoToken "0.01" 3).result
      = .error "DEX swap failed: After 3 attempts: boom" :=
  ⟨by decide, rfl, rfl⟩

/-- C6 (amended): when both the primary and the fallback venue fail, the error
the orchestrator propagates is `DEX swap failed: <fallback error>` — a
function of the fallback venue's message alone; the primary venue's message is
logged to the console but not part of the propagated error. -/
theorem orchestrator_error_propagation (uniEnvs simpleEnvs : ℕ → SwapEnv)
    (bal : ℕ) (token amt : String) (slip w : ℕ)
    (hw : parseEther amt = some w) (hbal : ¬ bal < w)
    (h1 : (swapEthForToken uniEnvs token amt slip).result.success = false)
    (h2 : (simpleSwapEthForToken simpleEnvs token amt slip).result.success = false) :
    (executeEthereumNetworkTrade uniEnvs simpleEnvs bal token amt slip).result
      = .error ("DEX swap failed: "
          ++ (simpleSwapEthForToken simpleEnvs token amt slip).result.error.getD
              "undefined") := by
  simp [executeEthereumNetworkTrade, hw, hbal, h1, h2]

/-- Witness for C6's amended theorem at the concrete failing environments. -/
theorem orchestrator_error_propagation_witness :
    (executeEthereumNetworkTrade (fun _ => demoEnvNoLiq)
        (fun _ => demoEnvFallbackFail) (10 ^ 18) demoToken "0.01" 3).result
      = .error ("DEX swap failed: "
          ++ (simpleSwapEthForToken (fun _ => demoEnvFallbackFail) demoToken
              "0.01" 3).result.error.getD "undefined") :=
  orchestrator_error_propagation (fun _ => demoEnvNoLiq)
    (fun _ => demoEnvFallbackFail) (10 ^ 18) demoToken "0.01" 3 (10 ^ 16)
    (by decide) (by decide) (by decide) (by decide)

/-- C8: for every balance `B`, if `B` is below the family's network minimum
the orchestrator skips (the early `return` before any position is recorded or
any swap attempted); otherwise every committed amount equals
`max (0.10 * B) networkMinimum`, additionally floored at the DEX
liquidity-reliability minimum 0.0015 for the Ethereum-routed family. -/
theorem executeTradeSizing_spec (nt : ChainType) (B : ℚ) :
    (B < (TRADING_CONFIG_hybrid nt).minTradeAmountETH →
      executeTradeSizing nt B = .skippedInsufficientBalance) ∧
    (∀ a, executeTradeSizing nt B = .proceed a →
      a = (if nt = .ethereum
           then max (max (B * (10 / 100))
              (TRADING_CONFIG_hybrid nt).minTradeAmountETH) dexMinimum
           else max (B * (10 / 100))
              (TRADING_CONFIG_hybrid nt).minTradeAmountETH)) := by
  constructor
  · intro hlt
    cases nt <;> simp_all [executeTradeSizing, TRADING_CONFIG_hybrid]
  · intro a ha
    cases nt
    · simp [executeTradeSizing, TRADING_CONFIG_hybrid] at ha
      split at ha
      · exact absurd ha (by simp)
      · injection ha with h
        simp [TRADING_CONFIG_hybrid, ← h]
    · simp [executeTradeSizing, TRADING_CONFIG_hybrid] at ha
      split at ha
      · exact absurd ha (by simp)
      · split at ha
        · exact absurd ha (by simp)
        · injection ha with h
          simp [TRADING_CONFIG_hybrid, ← h]

/-- Witness for C8: balance 0.0005 is skipped as insufficient (spec scenario
B), and balance 1 on the Ethereum family commits
`max (max 0.1 0.001) 0.0015 = 0.1` (spec scenario A). -/
theorem executeTradeSizing_spec_witness :
    ((1 / 2000 : ℚ) < (TRADING_CONFIG_hybrid .ethereum).minTradeAmountETH ∧
     executeTradeSizing .ethereum (1 / 2000) = .skippedInsufficientBalance) ∧
    (executeTradeSizing .ethereum 1 = .proceed (1 / 10) ∧
     (1 / 10 : ℚ) = (if ChainType.ethereum = .ethereum
        then max (max ((1 : ℚ) * (10 / 100))
           (TRADING_CONFIG_hybrid ChainType.ethereum).minTradeAmountETH) dexMinimum
        else max ((1 : ℚ) * (10 / 100))
           (TRADING_CONFIG_hybrid ChainType.ethereum).minTradeAmountETH)) := by
  have hlt : (1 / 2000 : ℚ) < (TRADING_CONFIG_hybrid .ethereum).minTradeAmountETH := by
    norm_num [TRADING_CONFIG_hybrid]
  have hp : executeTradeSizing .ethereum 1 = .proceed (1 / 10) := by
    norm_num [executeTradeSizing, TRADING_CONFIG_hybrid, dexMinimum, max_def]
  exact ⟨⟨hlt, (executeTradeSizing_spec .ethereum (1 / 2000)).1 hlt⟩,
    ⟨hp, (executeTradeSizing_spec .ethereum 1).2 (1 / 10) hp⟩⟩
